import Mathlib

/-!
Shallow embedding of the parts of the `srcf-python` repository needed to check
its specification: the `Result`/`State` plumbing (`srcflib/plumbing/common.py`),
the MySQL/PostgreSQL identifier handling and `drop_user` primitives
(`srcflib/plumbing/mysql.py`, `srcflib/plumbing/pgsql.py`), the job state
machine and sensitive-argument scrubbing (`srcf/controllib/jobs.py`,
`srcflib/plumbing/bespoke.py`), mailing-list name validation
(`srcflib/plumbing/mailman.py`, `CreateUserMailingList.run`), and the job
runner's startup protocol (`srcf/controllib/job_runner.py`).
-/

deriving instance DecidableEq for Except

namespace Srcf

/-- `State` enum from `srcflib/plumbing/common.py`: `unchanged = 0`,
`success = 1`, `created = 2`. -/
inductive State : Type where
  | unchanged
  | success
  | created
  deriving DecidableEq, Repr

/-- Python `State.__bool__`: `bool(self.value)`, i.e. `False` exactly for
`unchanged` (value 0). -/
def State.toBool : State → Bool
  | .unchanged => false
  | .success => true
  | .created => true

/-- Numeric enum value of a `State` member. -/
def State.val : State → Nat
  | .unchanged => 0
  | .success => 1
  | .created => 2

/-- `Result` from `srcflib/plumbing/common.py`, restricted to the two fields
the state computation reads: the optional explicitly-set `_state`, and the
tuple `parts` of sub-results.  (`_value` and `caller` play no role in any
state computation and are omitted.) -/
inductive Result : Type where
  | mk (hidState : Option State) (parts : List Result)

/-- The `_state` attribute. -/
def Result.hidState : Result → Option State
  | .mk s _ => s

/-- The `parts` attribute. -/
def Result.parts : Result → List Result
  | .mk _ p => p

/-- Python equality between a `State` enum member and a `Result` object, as
evaluated element-wise by the membership test `State.created in self.parts`
in `Result.state`.  Neither `State` (a plain `Enum`) nor `Result` defines a
cross-type `__eq__`, so Python falls back to object identity, which never
holds between values of the two distinct classes: the comparison is always
`False`. -/
def pyEqStateResult (_s : State) (_r : Result) : Bool :=
  false

mutual

/-- The `Result.state` property getter, translated line by line:

    if self._state: return self._state
    elif any(self.parts):
        if State.created in self.parts: return State.created
        else: return State.success
    else: return State.unchanged

`if self._state` is Python truthiness: `None` and `State.unchanged` are
falsy.  `any(self.parts)` calls `Result.__bool__` on each part, which is
`bool(part.state)`.  `State.created in self.parts` compares the enum member
against each `Result` object (see `pyEqStateResult`). -/
def Result.statePy : Result → State
  | .mk s? parts =>
    match s? with
    | some s =>
      if s.toBool then s
      else if Result.anyTruthy parts then
        (if parts.any (fun p => pyEqStateResult State.created p) then State.created
         else State.success)
      else State.unchanged
    | none =>
      if Result.anyTruthy parts then
        (if parts.any (fun p => pyEqStateResult State.created p) then State.created
         else State.success)
      else State.unchanged

/-- `any(self.parts)`: Python `any` over the parts, each converted by
`Result.__bool__ = bool(self.state)`. -/
def Result.anyTruthy : List Result → Bool
  | [] => false
  | r :: rs => (Result.statePy r).toBool || Result.anyTruthy rs

end

/-- The wrapper built by the `Result.collect` decorator: a new `Result` whose
`_state` is left as `None` and whose `parts` are the collected sub-results
(`cls(state, value, parts, fn)` with `state = None`). -/
def Result.collect (parts : List Result) : Result :=
  .mk none parts

/-- The `Result.state` property setter: `self._state = state`. -/
def Result.setState (r : Result) (s : State) : Result :=
  .mk (some s) r.parts

/-- The state a `Result` computes purely from its parts (the getter's value
when `_state` is unset). -/
def Result.aggState (parts : List Result) : State :=
  Result.statePy (.mk none parts)

/-- The aggregation rule as the spec words it: the maximum of the children's
states under `unchanged < success < created`.  Kept separate from
`Result.statePy` (which is translated from the code) so the two can be
compared. -/
def specAggState (states : List State) : State :=
  states.foldr (fun s t => if s.val ≥ t.val then s else t) State.unchanged

/-- Python `str.format` with positional `\x7b\x7d` placeholders, as used by
`"...{}...".format(*params)` in the embedded modules: each `\x7b\x7d` is
replaced by the next argument in order.  (Call sites in the repository always
supply exactly as many arguments as placeholders, and none of the templates
involved use `\x7b\x7b` escapes or field names, so this covers the behaviour
exercised.) -/
def pyFormatAux : List Char → List String → List Char
  | [], _ => []
  | '\x7b' :: '\x7d' :: rest, a :: as => a.toList ++ pyFormatAux rest as
  | c :: rest, as => c :: pyFormatAux rest as

/-- String-level wrapper for `pyFormatAux`. -/
def pyFormat (template : String) (args : List String) : String :=
  ⟨pyFormatAux template.toList args⟩

/-- Python `repr` of a string that contains no quote, backslash or control
characters (true of every template handled here): the text between single
quotes, as produced by the `\x7b!r\x7d` conversion in `Password.__repr__`. -/
def pyReprStr (s : String) : String :=
  "'" ++ s ++ "'"

/-- `Password` from `srcflib/plumbing/common.py`: a generated secret
(`_value`) plus a rendering template (`_template`, default `"\x7b\x7d"`). -/
structure Password : Type where
  value : String
  template : String := "\x7b\x7d"
  deriving DecidableEq, Repr

/-- `Password.__str__`: `self._template.format(self._value)`. -/
def Password.toStr (p : Password) : String :=
  pyFormat p.template [p.value]

/-- `Password.__repr__`:
`"<\x7b\x7d: \x7b!r\x7d>".format(self.__class__.__name__, self._template.format("***"))`. -/
def Password.reprPy (p : Password) : String :=
  "<Password: " ++ pyReprStr (pyFormat p.template ["***"]) ++ ">"

/-- `Password.wrap`: `Password(self._value, template.format(self._template))`. -/
def Password.wrap (p : Password) (template : String) : Password :=
  { value := p.value, template := pyFormat template [p.template] }

/-- `_format` from `srcflib/plumbing/pgsql.py`: identifiers are interpolated
in double quotes after checking that none of them contains a double quote —
`raise ValueError("Double quotes forbidden in identifiers")` otherwise. -/
def pg_format (sql : String) (literals : List String) : Except String String :=
  if literals.any (fun lit => lit.toList.contains '\"') then
    .error "Double quotes forbidden in identifiers"
  else
    .ok (pyFormat sql (literals.map (fun lit => "\"" ++ lit ++ "\"")))

/-- Abstract PostgreSQL server state: the existing role names, plus the trace
of SQL statements the cursor has executed (reads are not recorded). -/
structure PgState : Type where
  roles : List String
  executed : List String
  deriving DecidableEq, Repr

/-- `_create_user` from `srcflib/plumbing/pgsql.py`: format `CREATE USER`
through `_format` (which raises on a double quote before anything reaches the
server), then execute it; the server rejects a duplicate role.  Returns
`Result(State.created, passwd)` on success (the password value itself is
irrelevant here). -/
def pg_create_user (st : PgState) (name : String) : PgState × Except String State :=
  match pg_format "CREATE USER \x7b\x7d ENCRYPTED PASSWORD %s NOCREATEDB NOCREATEUSER" [name] with
  | .error e => (st, .error e)
  | .ok sql =>
    let st1 : PgState := { st with executed := st.executed ++ [sql] }
    if name ∈ st.roles then (st1, .error "DuplicateObject")
    else ({ st1 with roles := st.roles ++ [name] }, .ok State.created)

/-- `drop_user` from `srcflib/plumbing/pgsql.py`: executes
`DROP USER IF EXISTS` (removing the role when present, a no-op otherwise)
and returns `Result(State.success)` unconditionally. -/
def pg_drop_user (st : PgState) (name : String) : PgState × Except String State :=
  match pg_format "DROP USER IF EXISTS \x7b\x7d" [name] with
  | .error e => (st, .error e)
  | .ok sql =>
    ({ roles := st.roles.filter (fun r => r ≠ name),
       executed := st.executed ++ [sql] }, .ok State.success)

/-- Python `str.replace` with a single-character needle, used by the MySQL
`_format` escaping. -/
def pyReplaceChar (c : Char) (r : List Char) : List Char → List Char
  | [] => []
  | x :: xs => if x = c then r ++ pyReplaceChar c r xs else x :: pyReplaceChar c r xs

/-- The escaping `_format` from `srcflib/plumbing/mysql.py` applies to each
literal: `lit.replace("%", "%%").replace("`", "``")`. -/
def myEscapeLit (lit : String) : String :=
  ⟨pyReplaceChar '\x60' ['\x60', '\x60'] (pyReplaceChar '%' ['%', '%'] lit.toList)⟩

/-- `_format` from `srcflib/plumbing/mysql.py`: identifiers are interpolated
in backticks, with `%` and the backtick itself escaped by doubling — nothing
is ever rejected. -/
def my_format (sql : String) (literals : List String) : String :=
  pyFormat sql (literals.map (fun lit => "`" ++ myEscapeLit lit ++ "`"))

/-- Abstract MySQL server state: the existing user and database names, plus
the trace of executed statements (reads are not recorded). -/
structure MyState : Type where
  users : List String
  databases : List String
  executed : List String
  deriving DecidableEq, Repr

/-- `drop_user` from `srcflib/plumbing/mysql.py`: returns
`Result(State.unchanged)` when `get_users` finds no such user; otherwise
executes `DROP USER %s@%s` (the name is bound as a query parameter, not
interpolated) and returns `Result(State.success)`.  The `ER.CANNOT_USER`
handler only covers a concurrent deletion, which cannot occur in this
sequential model. -/
def my_drop_user (st : MyState) (name : String) : MyState × Except String State :=
  if name ∈ st.users then
    ({ st with users := st.users.filter (fun u => u ≠ name),
               executed := st.executed ++ ["DROP USER %s@%s"] }, .ok State.success)
  else (st, .ok State.unchanged)

/-- `create_database` from `srcflib/plumbing/mysql.py`: the statement built
by `_format` is always sent; an `ER.DB_CREATE_EXISTS` server error is caught
and mapped to `Result(State.unchanged)`, otherwise `Result(State.created)`. -/
def my_create_database (st : MyState) (name : String) : MyState × Except String State :=
  let sql := my_format "CREATE DATABASE \x7b\x7d" [name]
  let st1 : MyState := { st with executed := st.executed ++ [sql] }
  if name ∈ st.databases then (st1, .ok State.unchanged)
  else ({ st1 with databases := st.databases ++ [name] }, .ok State.created)

/-- The six operator actions of the `JobAction` enum in
`srcf/controllib/jobs.py` (`repeat` is a Lean keyword, hence `repeat_`). -/
inductive JobActionName : Type where
  | reject
  | approve
  | cancel
  | abort
  | repeat_
  | retry
  deriving DecidableEq, Repr

/-- `JobAction.past_label`. -/
def JobActionName.past_label : JobActionName → String
  | .reject => "rejected"
  | .approve => "approved"
  | .cancel => "cancelled"
  | .abort => "aborted"
  | .repeat_ => "repeated"
  | .retry => "retried"

/-- `JobAction.old_state`. -/
def JobActionName.old_state : JobActionName → String
  | .reject => "unapproved"
  | .approve => "unapproved"
  | .cancel => "queued"
  | .abort => "running"
  | .repeat_ => "done"
  | .retry => "failed"

/-- `JobAction.new_state`. -/
def JobActionName.new_state : JobActionName → String
  | .reject => "withdrawn"
  | .approve => "queued"
  | .cancel => "failed"
  | .abort => "failed"
  | .repeat_ => "queued"
  | .retry => "queued"

/-- The enum member's `.name`, used in the `JobActionInvalid` message. -/
def JobActionName.nameStr : JobActionName → String
  | .reject => "reject"
  | .approve => "approve"
  | .cancel => "cancel"
  | .abort => "abort"
  | .repeat_ => "repeat"
  | .retry => "retry"

/-- The constructor arguments of the `JobActionInvalid` exception: the
attempted action and the job's current state. -/
structure JobActionInvalid : Type where
  action : JobActionName
  state : String
  deriving DecidableEq, Repr

/-- The message `JobActionInvalid.__init__` formats:
`"Can't \x7b\x7d \x7b\x7djob, must be in \x7b\x7d state"` with the action
name, `"\x7b\x7d ".format(state)` when the state is truthy (non-empty), and
the action's required old state. -/
def JobActionInvalid.message (e : JobActionInvalid) : String :=
  "Can't " ++ e.action.nameStr ++ " "
    ++ (if e.state ≠ "" then e.state ++ " " else "")
    ++ "job, must be in " ++ e.action.old_state ++ " state"

/-- The two mutable columns of a job row that `transition` touches. -/
structure JobRow : Type where
  state : String
  state_message : Option String
  deriving DecidableEq, Repr

/-- Python falsiness of an optional string: `None` and `""`. -/
def pyFalsyOptStr : Option String → Bool
  | none => true
  | some s => s = ""

/-- Python `a or b` on optional strings. -/
def pyOrOptStr (a b : Option String) : Option String :=
  if pyFalsyOptStr a then b else a

/-- `Job.transition` from `srcf/controllib/jobs.py`:

    if self.state != action.old_state:
        raise JobActionInvalid(action, self.state)
    if action.new_state in ("failed", "withdrawn") and not message:
        message = "Job \x7b\x7d by sysadmins".format(action.past_label)
    self.set_state(action.new_state, message or self.state_message)

modelled as returning either the exception's arguments or the updated row. -/
def Job.transition (j : JobRow) (action : JobActionName) (message : Option String) :
    Except JobActionInvalid JobRow :=
  if j.state ≠ action.old_state then
    .error ⟨action, j.state⟩
  else
    let message :=
      if (action.new_state = "failed" ∨ action.new_state = "withdrawn")
          ∧ pyFalsyOptStr message then
        some ("Job " ++ action.past_label ++ " by sysadmins")
      else message
    .ok ⟨action.new_state, pyOrOptStr message j.state_message⟩

/-- One character of the class `[A-Za-z0-9\-]` from the two list-name
regexes. -/
def isListNameChar (c : Char) : Bool :=
  ('A' ≤ c && c ≤ 'Z') || ('a' ≤ c && c ≤ 'z') || ('0' ≤ c && c ≤ '9') || c = '-'

/-- Python `re.match(r"^[A-Za-z0-9\-]+$", name)` as a Bool: one or more
characters of the class; `$` also matches just before one trailing
newline. -/
def reFullMatchListName (name : String) : Bool :=
  let cs := name.toList
  let core := if cs.getLast? = some '\n' then cs.dropLast else cs
  !core.isEmpty && core.all isListNameChar

/-- Python `str.split` with a single-character separator, over the character
list (an empty string splits to `[""]`, matching Python). -/
def splitOnCharPy (sep : Char) : List Char → List (List Char)
  | [] => [[]]
  | c :: cs =>
    let rest := splitOnCharPy sep cs
    if c = sep then [] :: rest
    else
      match rest with
      | [] => [[c]]
      | r :: rs => (c :: r) :: rs

/-- Python `name.split("-")[-1]` (equally `name.rsplit("-", 1)[-1]`): the
final hyphen-separated segment. -/
def lastHyphenSegment (name : String) : String :=
  ⟨(splitOnCharPy '-' name.toList).getLastD []⟩

/-- The reserved suffixes checked by `CreateUserMailingList.run`
(`srcf/controllib/jobs.py`). -/
def RESERVED_SUFFIXES_JOB : List String :=
  ["admins", "admin", "bounces", "confirm", "join", "leave", "owner",
   "request", "subscribe", "unsubscribe"]

/-- The reserved suffixes checked by `_create_list`
(`srcflib/plumbing/mailman.py`). -/
def RESERVED_SUFFIXES_MAILMAN : List String :=
  ["admin", "bounces", "confirm", "join", "leave", "owner",
   "request", "subscribe", "unsubscribe"]

/-- The name sanity check of `CreateUserMailingList.run`: raise
`JobFailed("Invalid list suffix <listname>")` when the name fails the regex
or its final segment is reserved; otherwise delegate to the srcflib
mailing-list creation task with `(self.owner, self.listname)`. -/
def createUserMailingList_run (owner_crsid listname : String) :
    Except String (String × String) :=
  if ¬(reFullMatchListName listname = true)
      ∨ lastHyphenSegment listname ∈ RESERVED_SUFFIXES_JOB then
    .error ("Invalid list suffix " ++ listname)
  else
    .ok (owner_crsid, listname)

/-- The validation part of `_create_list` in `srcflib/plumbing/mailman.py`:
reject an existing list, then the name pattern, then a reserved final
segment; on success `newlist` is invoked for `(name, owner)`. -/
def mailman_create_list_checks (existing : List String) (name owner : String) :
    Except String (String × String) :=
  if name ∈ existing then
    .error ("List '" ++ name ++ "' already exists")
  else if ¬(reFullMatchListName name = true) then
    .error ("Invalid list name '" ++ name ++ "'")
  else if lastHyphenSegment name ∈ RESERVED_SUFFIXES_MAILMAN then
    .error ("List name '" ++ name ++ "' suffixed with reserved keyword")
  else
    .ok (name, owner)

/-- A row of the `jobs` table as the runner sees it. -/
structure DbJob : Type where
  job_id : Nat
  state : String
  deriving DecidableEq, Repr

/-- `queued_jobs` from `srcf/controllib/job_runner.py`: first the backlog —
`sess.query(Job).filter(Job.state == "queued").all()`, which carries no
`order_by`, so rows arrive in whatever order the database returns them
(`table` models that order) — then the ids delivered by `LISTEN jobs_insert`
notifications in arrival order (`notifs`). -/
def queued_jobs (table : List DbJob) (notifs : List Nat) : List Nat :=
  (table.filter (fun j => j.state = "queued")).map (fun j => j.job_id) ++ notifs

/-- `RUNNER_LOCK_NUM = 0x366636F6E7472` from
`srcf/controllib/job_runner.py`. -/
def RUNNER_LOCK_NUM : Nat := 0x366636F6E7472

/-- The `DatabaseLocked` exception. -/
inductive DatabaseLocked : Type where
  | mk
  deriving DecidableEq, Repr

/-- `pg_try_advisory_lock(key)`: acquired iff no other session holds
`key`. -/
def pg_try_advisory_lock (key : Nat) (held : List Nat) : Bool :=
  !decide (key ∈ held)

/-- The connection `connect` hands back: the advisory locks this session now
holds and the channels it listens on. -/
structure RunnerConn : Type where
  locks : List Nat
  listening : List String
  deriving DecidableEq, Repr

/-- `connect` from `srcf/controllib/job_runner.py`: issue
`pg_try_advisory_lock(RUNNER_LOCK_NUM)` on the store connection; if it is
not acquired raise `DatabaseLocked`, otherwise execute `LISTEN jobs_insert`
and return the connection (and session).  The second component is the
advisory-lock table after the call (`held` plus the runner lock when
acquired). -/
def connect (held : List Nat) : Except DatabaseLocked RunnerConn × List Nat :=
  if pg_try_advisory_lock RUNNER_LOCK_NUM held then
    (.ok { locks := [RUNNER_LOCK_NUM], listening := ["jobs_insert"] },
     RUNNER_LOCK_NUM :: held)
  else
    (.error .mk, held)

/-- A value of the `SENSITIVE_ARGS` table in `srcf/controllib/jobs.py`:
every entry is a tuple of field names except the `CreateSociety` entry
`("description")`, which (missing its trailing comma) is the plain string
`"description"`; Python iterates a string by characters. -/
inductive PyFields : Type where
  | tup (fields : List String)
  | str (s : String)
  deriving DecidableEq, Repr

/-- `for field in SENSITIVE_ARGS[cls]`: a tuple yields its elements, a string
yields its characters as one-character strings. -/
def PyFields.iter : PyFields → List String
  | .tup fields => fields
  | .str s => s.toList.map (fun c => String.mk [c])

/-- `SENSITIVE_ARGS` from `srcf/controllib/jobs.py`, keyed by each class's
`JOB_TYPE`.  Note the `create_society` entry: `("description")` in the
source is a parenthesised string, not a tuple. -/
def SENSITIVE_ARGS : List (String × PyFields) :=
  [("signup", .tup ["preferred_name", "surname", "email"]),
   ("reactivate", .tup ["preferred_name", "surname", "email"]),
   ("update_name", .tup ["preferred_name", "surname"]),
   ("update_email_address", .tup ["email"]),
   ("create_user_mailing_list", .tup ["listname"]),
   ("reset_user_mailing_list_password", .tup ["listname"]),
   ("add_user_vhost", .tup ["domain", "root"]),
   ("change_user_vhost_docroot", .tup ["domain", "root"]),
   ("remove_user_vhost", .tup ["domain"]),
   ("create_society", .str "description"),
   ("update_society_description", .tup ["description"]),
   ("update_society_role_email", .tup ["email"]),
   ("create_society_mailing_list", .tup ["listname"]),
   ("reset_society_mailing_list_password", .tup ["listname"]),
   ("add_society_vhost", .tup ["domain", "root"]),
   ("change_society_vhost_docroot", .tup ["domain", "root"]),
   ("remove_society_vhost", .tup ["domain"])]

/-- `job.args.get(field)` over an hstore column modelled as an association
list with unique keys. -/
def argsGet (args : List (String × String)) (k : String) : Option String :=
  (args.find? (fun kv => kv.1 = k)).map (fun kv => kv.2)

/-- `job.args[field] = v`. -/
def argsSet (args : List (String × String)) (k v : String) : List (String × String) :=
  args.map (fun kv => if kv.1 = k then (kv.1, v) else kv)

/-- A job row as `scrub_member_jobs` sees it. -/
structure ScrubJob : Type where
  type : String
  owner_crsid : Option String
  args : List (String × String)
  deriving DecidableEq, Repr

/-- The inner loop of `scrub_member_jobs`:
`value = job.args.get(field); if value and value != "<redacted>":
job.args[field] = "<redacted>"`, over the listed fields in order. -/
def scrubFields (args : List (String × String)) : List String → List (String × String)
  | [] => args
  | f :: fs =>
    let args2 :=
      match argsGet args f with
      | some v => if v ≠ "" ∧ v ≠ "<redacted>" then argsSet args f "<redacted>" else args
      | none => args
    scrubFields args2 fs

/-- Scrub a single job: skip jobs whose type is not in `SENSITIVE_ARGS`,
otherwise scrub each of that type's listed fields. -/
def scrubJob (j : ScrubJob) : ScrubJob :=
  match SENSITIVE_ARGS.find? (fun e => e.1 = j.type) with
  | none => j
  | some e => { j with args := scrubFields j.args e.2.iter }

/-- The member branch of the `scrub_member_jobs` query filter:
`(Job.owner_crsid == owner.crsid) | ((Job.type == Signup.JOB_TYPE) &
(Job.args.contains(\x7b"crsid": owner.crsid\x7d)))`. -/
def jobMatchesMember (crsid : String) (j : ScrubJob) : Prop :=
  j.owner_crsid = some crsid ∨
    (j.type = "signup" ∧ argsGet j.args "crsid" = some crsid)

instance (crsid : String) (j : ScrubJob) : Decidable (jobMatchesMember crsid j) := by
  unfold jobMatchesMember
  infer_instance

/-- `scrub_member_jobs(sess, member)` from `srcflib/plumbing/bespoke.py`,
restricted to its effect on the job rows (the returned `Result` state is not
needed by any claim). -/
def scrub_member_jobs (crsid : String) (table : List ScrubJob) : List ScrubJob :=
  table.map (fun j => if jobMatchesMember crsid j then scrubJob j else j)

/-- If some part is truthy, `any(self.parts)` is `True`. -/
theorem Result.anyTruthy_of_mem {p : Result} {l : List Result} (hp : p ∈ l)
    (hs : (Result.statePy p).toBool = true) : Result.anyTruthy l = true := by
  induction l with
  | nil => cases hp
  | cons a l ih =>
    rw [Result.anyTruthy]
    rcases List.mem_cons.mp hp with h | h
    · simp [h ▸ hs]
    · simp [ih h]

/-- With at least one truthy part, the state computed from parts alone is
`success` (the `State.created in self.parts` test never fires, see
`pyEqStateResult`). -/
theorem Result.aggState_eq_success {parts : List Result}
    (h : Result.anyTruthy parts = true) :
    Result.aggState parts = State.success := by
  simp [Result.aggState, Result.statePy, h, pyEqStateResult]

end Srcf

open Srcf

/-- C1: a composite `Result` built by `Result.collect` over children
c1…cn with no explicitly-set state is claimed to report the maximum of the
children's states under `unchanged < success < created`; in particular a
composite with a child in state `created` is claimed to report `created`.
The code disagrees: `State.created in self.parts` compares the enum member
against `Result` objects and is always `False`, so a collect over a single
`created` child reports `success`, while the spec's max rule (and the
repository's own test `test_state_parts_created`) gives `created`. -/
theorem c1_created_child_aggregates_to_success_not_created :
    (Result.collect [Result.mk (some State.created) []]).statePy = State.success ∧
    specAggState
      ((Result.collect [Result.mk (some State.created) []]).parts.map Result.statePy)
      = State.created ∧
    State.success ≠ State.created := by
  decide

/-- C10: for a `Result` with at least one part in state `success` or
`created`, explicitly assigning `State.unchanged` via the `state` setter does
not override the computed aggregate: the getter sees a falsy `_state` and
returns the state computed from `parts`, which is `success` or `created`. -/
theorem c10_set_unchanged_does_not_override_parts (r p : Result)
    (hp : p ∈ r.parts)
    (hs : p.statePy = State.success ∨ p.statePy = State.created) :
    (r.setState State.unchanged).statePy = Result.aggState r.parts ∧
    (Result.aggState r.parts = State.success ∨
     Result.aggState r.parts = State.created) := by
  have htruthy : (Result.statePy p).toBool = true := by
    rcases hs with h | h <;> simp [h, State.toBool]
  have hany := Result.anyTruthy_of_mem hp htruthy
  constructor
  · simp [Result.setState, Result.statePy, Result.aggState, State.toBool]
  · exact Or.inl (Result.aggState_eq_success hany)

/-- Witness for C10 at a concrete composite: a result with explicit state
`success` holding one `success` part. -/
theorem c10_set_unchanged_does_not_override_parts_witness :
    ((Result.mk (some State.success) [Result.mk (some State.success) []]).setState
        State.unchanged).statePy
      = Result.aggState [Result.mk (some State.success) []] ∧
    (Result.aggState [Result.mk (some State.success) []] = State.success ∨
     Result.aggState [Result.mk (some State.success) []] = State.created) :=
  c10_set_unchanged_does_not_override_parts
    (Result.mk (some State.success) [Result.mk (some State.success) []])
    (Result.mk (some State.success) [])
    (List.mem_cons_self _ _) (Or.inl (by decide))

/-- C9 counterexample: the claim says the debug repr of `Password(s, t)` does
not contain the secret `s` for every secret.  For the secret `"s"` with the
default template, the repr is the fixed string `<Password: '***'>`, which
does contain `"s"` (inside the class name `Password`).  The redaction of the
secret's position is real, but literal non-containment fails. -/
theorem c9_counterexample_repr_contains_secret_s :
    Password.reprPy { value := "s" } = "<Password: '***'>" ∧
    "s".toList <:+: (Password.reprPy { value := "s" }).toList := by
  exact ⟨rfl, by decide⟩

/-- C9 (amended): the debug repr of a `Password` — and of any `Password`
derived from it via `wrap` — substitutes `***` for the secret and is
entirely independent of the secret: two `Password`s with the same template
but different secrets have identical reprs, while `str` substitutes the
actual secret (for the default template, `str` is the secret itself). -/
theorem c9_repr_depends_only_on_template (s1 s2 t u : String) :
    Password.reprPy { value := s1, template := t }
      = Password.reprPy { value := s2, template := t } ∧
    Password.reprPy (Password.wrap { value := s1, template := t } u)
      = Password.reprPy (Password.wrap { value := s2, template := t } u) ∧
    Password.reprPy { value := s1 } = "<Password: '***'>" ∧
    Password.toStr { value := s1 } = s1 := by
  refine ⟨rfl, rfl, rfl, ?_⟩
  simp [Password.toStr, pyFormat, pyFormatAux]

/-- Filtering out a name is idempotent. -/
theorem filterNe_idem (name : String) (l : List String) :
    (l.filter fun r => r ≠ name).filter (fun r => r ≠ name)
      = l.filter fun r => r ≠ name := by
  apply List.filter_eq_self.mpr
  intro a ha
  exact (List.mem_filter.mp ha).2

/-- A name does not survive filtering itself out. -/
theorem not_mem_filterNe (name : String) (l : List String) :
    name ∉ l.filter (fun r => r ≠ name) := by
  intro hmem
  have hpa := List.of_mem_filter hmem
  simp at hpa

/-- C2 counterexample: a second consecutive `pgsql.drop_user(cursor, name)`
is claimed to return state `unchanged`; in fact `drop_user` issues
`DROP USER IF EXISTS` and returns `Result(State.success)` unconditionally,
so with a single role `alice` both the first and the second call return
`success`. -/
theorem c2_counterexample_pg_drop_user_second_call_not_unchanged :
    (pg_drop_user ⟨["alice"], []⟩ "alice").2 = Except.ok State.success ∧
    (pg_drop_user (pg_drop_user ⟨["alice"], []⟩ "alice").1 "alice").2
      = Except.ok State.success ∧
    (pg_drop_user (pg_drop_user ⟨["alice"], []⟩ "alice").1 "alice").1.roles
      = (pg_drop_user ⟨["alice"], []⟩ "alice").1.roles ∧
    Except.ok State.success ≠ (Except.ok State.unchanged : Except String State) := by
  decide

/-- C2 (amended): both `drop_user` primitives are idempotent on database
state — a second consecutive call leaves the roles/users exactly as after the
first — and `mysql.drop_user` returns `unchanged` on the second call, but
`pgsql.drop_user` (like `reset_password`) returns `success` on every call. -/
theorem c2_amended_drop_user_idempotent (st : PgState) (mst : MyState) (name : String)
    (h : '\"' ∉ name.toList) :
    (pg_drop_user (pg_drop_user st name).1 name).1.roles
      = (pg_drop_user st name).1.roles ∧
    (pg_drop_user st name).2 = Except.ok State.success ∧
    (pg_drop_user (pg_drop_user st name).1 name).2 = Except.ok State.success ∧
    (my_drop_user (my_drop_user mst name).1 name).1 = (my_drop_user mst name).1 ∧
    (my_drop_user (my_drop_user mst name).1 name).2 = Except.ok State.unchanged := by
  have hfmt : ∀ s : String,
      pg_format s [name] = .ok (pyFormat s ["\"" ++ name ++ "\""]) := by
    intro s; simp [pg_format]; exact h
  have hpg : ∀ s : PgState, pg_drop_user s name
      = ({ roles := s.roles.filter (fun r => r ≠ name),
           executed := s.executed
             ++ [pyFormat "DROP USER IF EXISTS \x7b\x7d" ["\"" ++ name ++ "\""]] },
         .ok State.success) := by
    intro s; rw [pg_drop_user, hfmt]
  refine ⟨?_, ?_, ?_, ?_, ?_⟩
  · rw [hpg st, hpg]
    exact filterNe_idem name st.roles
  · rw [hpg]
  · rw [hpg st, hpg]
  · by_cases hm : name ∈ mst.users
    · simp [my_drop_user, hm, not_mem_filterNe]
    · simp [my_drop_user, hm]
  · by_cases hm : name ∈ mst.users
    · simp [my_drop_user, hm, not_mem_filterNe]
    · simp [my_drop_user, hm]

/-- Witness for C2 (amended) with role and user `alice`. -/
theorem c2_amended_drop_user_idempotent_witness :
    (pg_drop_user (pg_drop_user ⟨["alice"], []⟩ "alice").1 "alice").1.roles
      = (pg_drop_user ⟨["alice"], []⟩ "alice").1.roles ∧
    (pg_drop_user ⟨["alice"], []⟩ "alice").2 = Except.ok State.success ∧
    (pg_drop_user (pg_drop_user ⟨["alice"], []⟩ "alice").1 "alice").2
      = Except.ok State.success ∧
    (my_drop_user (my_drop_user ⟨["alice"], [], []⟩ "alice").1 "alice").1
      = (my_drop_user ⟨["alice"], [], []⟩ "alice").1 ∧
    (my_drop_user (my_drop_user ⟨["alice"], [], []⟩ "alice").1 "alice").2
      = Except.ok State.unchanged :=
  c2_amended_drop_user_idempotent ⟨["alice"], []⟩ ⟨["alice"], [], []⟩ "alice" (by decide)

/-- C5 counterexample: the claim says an operation embedding an identifier
containing the MySQL quote character (backtick) raises before issuing any
statement.  In fact `mysql._format` escapes the backtick by doubling it and
the statement is issued: `create_database` on the name ``a`b`` completes with
`created` and executes ``CREATE DATABASE `a``b` ``. -/
theorem c5_counterexample_mysql_backtick_escaped_not_rejected :
    (my_create_database ⟨[], [], []⟩ "a`b").2 = Except.ok State.created ∧
    (my_create_database ⟨[], [], []⟩ "a`b").1.executed
      = ["CREATE DATABASE `a``b`"] := by
  decide

/-- C5 (amended): PostgreSQL identifiers containing a double quote are
rejected by `_format` before any statement is issued (`create_user` and
`drop_user` raise, leaving the server state untouched), while MySQL
identifiers have backticks (and `%`) escaped by doubling rather than being
rejected: `create_database` never raises from quoting and always issues its
`_format`-built statement. -/
theorem c5_amended_pg_rejects_quote_mysql_escapes (st : PgState) (mst : MyState)
    (name : String) (h : '\"' ∈ name.toList) :
    pg_create_user st name
      = (st, Except.error "Double quotes forbidden in identifiers") ∧
    pg_drop_user st name
      = (st, Except.error "Double quotes forbidden in identifiers") ∧
    ((my_create_database mst name).2 = Except.ok State.created ∨
     (my_create_database mst name).2 = Except.ok State.unchanged) ∧
    (my_create_database mst name).1.executed
      = mst.executed ++ [my_format "CREATE DATABASE \x7b\x7d" [name]] := by
  have hfmt : ∀ s : String,
      pg_format s [name] = .error "Double quotes forbidden in identifiers" := by
    intro s; simp [pg_format]; exact h
  refine ⟨?_, ?_, ?_, ?_⟩
  · rw [pg_create_user, hfmt]
  · rw [pg_drop_user, hfmt]
  · by_cases hdb : name ∈ mst.databases
    · exact Or.inr (by simp [my_create_database, hdb])
    · exact Or.inl (by simp [my_create_database, hdb])
  · by_cases hdb : name ∈ mst.databases <;> simp [my_create_database, hdb]

/-- Witness for C5 (amended) with the identifier `a"b`. -/
theorem c5_amended_pg_rejects_quote_mysql_escapes_witness :
    pg_create_user ⟨[], []⟩ "a\"b"
      = (⟨[], []⟩, Except.error "Double quotes forbidden in identifiers") ∧
    pg_drop_user ⟨[], []⟩ "a\"b"
      = (⟨[], []⟩, Except.error "Double quotes forbidden in identifiers") ∧
    ((my_create_database ⟨[], [], []⟩ "a\"b").2 = Except.ok State.created ∨
     (my_create_database ⟨[], [], []⟩ "a\"b").2 = Except.ok State.unchanged) ∧
    (my_create_database ⟨[], [], []⟩ "a\"b").1.executed
      = [] ++ [my_format "CREATE DATABASE \x7b\x7d" ["a\"b"]] :=
  c5_amended_pg_rejects_quote_mysql_escapes ⟨[], []⟩ ⟨[], [], []⟩ "a\"b" (by decide)

/-- C3: `Job.transition(action)` moves the state from `action.old_state` to
`action.new_state` when the current state is `action.old_state`; otherwise
it raises `JobActionInvalid` carrying the action and the current state (the
row is returned unmodified only through the exception path, so no other
state change can occur: every successful transition is exactly
`old_state → new_state`). -/
theorem c3_transition_fsm (j : JobRow) (a : JobActionName) (msg : Option String) :
    (j.state = a.old_state →
      ∃ m, Job.transition j a msg = .ok ⟨a.new_state, m⟩) ∧
    (j.state ≠ a.old_state →
      Job.transition j a msg = .error ⟨a, j.state⟩) ∧
    (∀ j2, Job.transition j a msg = .ok j2 →
      j.state = a.old_state ∧ j2.state = a.new_state) := by
  refine ⟨fun h => ?_, fun h => by simp [Job.transition, h], fun j2 hok => ?_⟩
  · refine ⟨pyOrOptStr
        (if (a.new_state = "failed" ∨ a.new_state = "withdrawn")
            ∧ pyFalsyOptStr msg = true then
          some ("Job " ++ a.past_label ++ " by sysadmins")
        else msg) j.state_message, ?_⟩
    simp [Job.transition, h]
  · by_cases h : j.state = a.old_state
    · refine ⟨h, ?_⟩
      simp [Job.transition, h] at hok
      rw [← hok]
    · simp [Job.transition, h] at hok

/-- Witness for C3: a `queued` job is cancelled into `failed`, and the same
job cannot be approved. -/
theorem c3_transition_fsm_witness :
    ((⟨"queued", none⟩ : JobRow).state = JobActionName.cancel.old_state →
      ∃ m, Job.transition ⟨"queued", none⟩ .cancel none
        = .ok ⟨JobActionName.cancel.new_state, m⟩) ∧
    ((⟨"queued", none⟩ : JobRow).state ≠ JobActionName.cancel.old_state →
      Job.transition ⟨"queued", none⟩ .cancel none
        = .error ⟨.cancel, (⟨"queued", none⟩ : JobRow).state⟩) ∧
    (∀ j2, Job.transition ⟨"queued", none⟩ .cancel none = .ok j2 →
      (⟨"queued", none⟩ : JobRow).state = JobActionName.cancel.old_state ∧
        j2.state = JobActionName.cancel.new_state) :=
  c3_transition_fsm ⟨"queued", none⟩ .cancel none

/-- C4: the claim says every sensitive key of every sensitive job type —
including the `create_society` job's `description` — is absent or
`<redacted>` after `scrub_member_jobs`.  The `SENSITIVE_ARGS` entry for
`CreateSociety` is the plain string `"description"` (missing tuple comma),
so the loop scrubs the single-character keys `d`, `e`, `s`, … and the
`description` value survives verbatim, while the same value on an
`update_society_description` job is redacted. -/
theorem c4_create_society_description_survives_scrub :
    scrub_member_jobs "spqr2"
        [⟨"create_society", some "spqr2",
          [("society", "rowing"), ("description", "Rowing Club")]⟩]
      = [⟨"create_society", some "spqr2",
          [("society", "rowing"), ("description", "Rowing Club")]⟩] ∧
    (SENSITIVE_ARGS.find? (fun e => e.1 = "create_society")).isSome = true ∧
    scrub_member_jobs "spqr2"
        [⟨"update_society_description", some "spqr2",
          [("society", "rowing"), ("description", "Rowing Club")]⟩]
      = [⟨"update_society_description", some "spqr2",
          [("society", "rowing"), ("description", "<redacted>")]⟩] := by
  decide

/-- C6 counterexample: `queued_jobs` has no `ORDER BY`, so the backlog is
yielded in the order the query returns rows; with the table returning job 2
before job 1, the runner dispatches 2, 1, 3 — not ascending id order as
claimed. -/
theorem c6_counterexample_backlog_not_in_id_order :
    queued_jobs [⟨2, "queued"⟩, ⟨1, "queued"⟩, ⟨3, "queued"⟩] [] = [2, 1, 3] ∧
    ¬ List.Sorted (· ≤ ·)
        (queued_jobs [⟨2, "queued"⟩, ⟨1, "queued"⟩, ⟨3, "queued"⟩] []) := by
  constructor
  · decide
  · decide

/-- C6 (amended): at runner start `queued_jobs` yields the ids of exactly
the jobs whose state is `queued`, in the order the query returns the rows
(there is no `ORDER BY`, so this is ascending id order only when the
database returns the rows so ordered — e.g. in insertion order), and all of
them before any notification-delivered id. -/
theorem c6_amended_backlog_in_query_order_before_notifications
    (table : List DbJob) (notifs : List Nat)
    (hsorted : List.Sorted (· < ·) (table.map (fun j => j.job_id))) :
    queued_jobs table notifs
      = (table.filter (fun j => j.state = "queued")).map (fun j => j.job_id)
          ++ notifs ∧
    List.Sorted (· < ·)
      ((table.filter (fun j => j.state = "queued")).map (fun j => j.job_id)) ∧
    (∀ i, i ∈ (table.filter (fun j => j.state = "queued")).map (fun j => j.job_id)
      ↔ ∃ j ∈ table, j.state = "queued" ∧ j.job_id = i) := by
  refine ⟨rfl, ?_, ?_⟩
  · exact List.Pairwise.sublist
      (List.Sublist.map _ (List.filter_sublist table)) hsorted
  · intro i
    simp only [List.mem_map, List.mem_filter, decide_eq_true_eq]
    tauto

/-- Witness for C6 (amended): three jobs returned in ascending id order, one
of them not queued, with one notification id. -/
theorem c6_amended_backlog_in_query_order_before_notifications_witness :
    queued_jobs [⟨1, "queued"⟩, ⟨2, "done"⟩, ⟨3, "queued"⟩] [7]
      = (([⟨1, "queued"⟩, ⟨2, "done"⟩, ⟨3, "queued"⟩] : List DbJob).filter
            (fun j => j.state = "queued")).map (fun j => j.job_id) ++ [7] ∧
    List.Sorted (· < ·)
      ((([⟨1, "queued"⟩, ⟨2, "done"⟩, ⟨3, "queued"⟩] : List DbJob).filter
            (fun j => j.state = "queued")).map (fun j => j.job_id)) ∧
    (∀ i, i ∈ (([⟨1, "queued"⟩, ⟨2, "done"⟩, ⟨3, "queued"⟩] : List DbJob).filter
            (fun j => j.state = "queued")).map (fun j => j.job_id)
      ↔ ∃ j ∈ ([⟨1, "queued"⟩, ⟨2, "done"⟩, ⟨3, "queued"⟩] : List DbJob),
          j.state = "queued" ∧ j.job_id = i) :=
  c6_amended_backlog_in_query_order_before_notifications
    [⟨1, "queued"⟩, ⟨2, "done"⟩, ⟨3, "queued"⟩] [7] (by decide)

/-- C7: `connect()` raises `DatabaseLocked` iff the try-advisory-lock with
the constant `0x366636F6E7472` is not acquired; when acquired it subscribes
via `LISTEN jobs_insert` and returns the connection, and a second runner
started while the first holds the lock gets `DatabaseLocked`. -/
theorem c7_connect_locked_iff (held : List Nat) :
    ((connect held).1 = .error .mk
      ↔ pg_try_advisory_lock RUNNER_LOCK_NUM held = false) ∧
    ((connect held).1 = .error .mk ↔ RUNNER_LOCK_NUM ∈ held) ∧
    (∀ c, (connect held).1 = .ok c →
      c.listening = ["jobs_insert"] ∧ RUNNER_LOCK_NUM ∈ c.locks) ∧
    ((connect held).1 ≠ .error .mk →
      (connect (connect held).2).1 = .error .mk) := by
  by_cases hm : RUNNER_LOCK_NUM ∈ held
  · simp [connect, pg_try_advisory_lock, hm]
  · simp [connect, pg_try_advisory_lock, hm]

/-- Witness for C7 on a free lock table: the lock is acquired, `LISTEN
jobs_insert` runs, and a second `connect` fails. -/
theorem c7_connect_locked_iff_witness :
    ((connect []).1 = .error .mk
      ↔ pg_try_advisory_lock RUNNER_LOCK_NUM [] = false) ∧
    ((connect []).1 = .error .mk ↔ RUNNER_LOCK_NUM ∈ ([] : List Nat)) ∧
    (∀ c, (connect []).1 = .ok c →
      c.listening = ["jobs_insert"] ∧ RUNNER_LOCK_NUM ∈ c.locks) ∧
    ((connect []).1 ≠ .error .mk → (connect (connect []).2).1 = .error .mk) :=
  c7_connect_locked_iff []

/-- C8 counterexample: the claim requires an error whenever the requested
name is not composed solely of lowercase alphanumerics and hyphens.  The
code's pattern `[A-Za-z0-9\-]+` also accepts uppercase: `Mylist` is not
lowercase-only, yet both `CreateUserMailingList.run` and the `_create_list`
checks accept it without error. -/
theorem c8_counterexample_uppercase_list_name_accepted :
    createUserMailingList_run "spqr2" "Mylist" = .ok ("spqr2", "Mylist") ∧
    mailman_create_list_checks [] "Mylist" "spqr2@srcf.net"
      = .ok ("Mylist", "spqr2@srcf.net") ∧
    ("Mylist".toList.all
        (fun c => ('a' ≤ c && c ≤ 'z') || ('0' ≤ c && c ≤ '9') || c = '-'))
      = false := by
  decide

/-- Every suffix reserved at the mailman layer is also reserved at the job
layer (the job layer additionally reserves `admins`). -/
theorem reserved_mailman_subset_job {s : String}
    (h : s ∈ RESERVED_SUFFIXES_MAILMAN) : s ∈ RESERVED_SUFFIXES_JOB := by
  simp [RESERVED_SUFFIXES_MAILMAN] at h
  simp [RESERVED_SUFFIXES_JOB]
  tauto

/-- C8 (amended): `CreateUserMailingList.run` raises
`JobFailed("Invalid list suffix <listname>")` — without invoking the
list-creation helper — exactly when the name is not one or more
alphanumerics (either case) or hyphens, or its final hyphen-separated
segment is in the job-level reserved set (which additionally contains
`admins`); any name it accepts also passes the `_create_list` name checks
for a not-yet-existing list. -/
theorem c8_amended_list_name_policy (owner name : String) :
    (createUserMailingList_run owner name
        = .error ("Invalid list suffix " ++ name)
      ∨ createUserMailingList_run owner name = .ok (owner, name)) ∧
    (createUserMailingList_run owner name
        = .error ("Invalid list suffix " ++ name)
      ↔ (¬(reFullMatchListName name = true)
          ∨ lastHyphenSegment name ∈ RESERVED_SUFFIXES_JOB)) ∧
    (createUserMailingList_run owner name = .ok (owner, name) →
      mailman_create_list_checks [] name owner = .ok (name, owner)) := by
  by_cases hc : ¬(reFullMatchListName name = true)
      ∨ lastHyphenSegment name ∈ RESERVED_SUFFIXES_JOB
  · have hrun : createUserMailingList_run owner name
        = .error ("Invalid list suffix " ++ name) := by
      unfold createUserMailingList_run
      exact if_pos hc
    refine ⟨Or.inl hrun, ⟨fun _ => hc, fun _ => hrun⟩, fun hok => ?_⟩
    rw [hrun] at hok
    simp at hok
  · push_neg at hc
    have hrun : createUserMailingList_run owner name = .ok (owner, name) := by
      unfold createUserMailingList_run
      exact if_neg (fun hor => hor.elim (fun hn => hn hc.1) (fun hm => hc.2 hm))
    have hseg : lastHyphenSegment name ∉ RESERVED_SUFFIXES_MAILMAN :=
      fun hmem => hc.2 (reserved_mailman_subset_job hmem)
    have hml : mailman_create_list_checks [] name owner = .ok (name, owner) := by
      unfold mailman_create_list_checks
      rw [if_neg (by simp), if_neg (by simp [hc.1]), if_neg hseg]
    refine ⟨Or.inr hrun, ⟨fun heq => ?_, fun hor => ?_⟩, fun _ => hml⟩
    · rw [hrun] at heq
      simp at heq
    · rcases hor with hn | hm
      · exact absurd hc.1 hn
      · exact absurd hm hc.2

/-- Witness for C8 (amended) at the spec's example `mylist-admin` (rejected)
and at `mylist` (accepted). -/
theorem c8_amended_list_name_policy_witness :
    ((createUserMailingList_run "spqr2" "mylist-admin"
        = .error ("Invalid list suffix " ++ "mylist-admin")
      ∨ createUserMailingList_run "spqr2" "mylist-admin"
        = .ok ("spqr2", "mylist-admin")) ∧
    (createUserMailingList_run "spqr2" "mylist-admin"
        = .error ("Invalid list suffix " ++ "mylist-admin")
      ↔ (¬(reFullMatchListName "mylist-admin" = true)
          ∨ lastHyphenSegment "mylist-admin" ∈ RESERVED_SUFFIXES_JOB)) ∧
    (createUserMailingList_run "spqr2" "mylist-admin"
        = .ok ("spqr2", "mylist-admin") →
      mailman_create_list_checks [] "mylist-admin" "spqr2"
        = .ok ("mylist-admin", "spqr2"))) ∧
    (createUserMailingList_run "spqr2" "mylist" = .ok ("spqr2", "mylist")) :=
  ⟨c8_amended_list_name_policy "spqr2" "mylist-admin", by decide⟩

/-- Witness-style instantiation for C9 at two distinct secrets sharing the
template `user:\x7b\x7d`. -/
theorem c9_repr_depends_only_on_template_witness :
    Password.reprPy { value := "secret1", template := "user:\x7b\x7d" }
      = Password.reprPy { value := "secret2", template := "user:\x7b\x7d" } ∧
    Password.reprPy (Password.wrap { value := "secret1", template := "user:\x7b\x7d" } "pw=\x7b\x7d;")
      = Password.reprPy (Password.wrap { value := "secret2", template := "user:\x7b\x7d" } "pw=\x7b\x7d;") ∧
    Password.reprPy { value := "secret1" } = "<Password: '***'>" ∧
    Password.toStr { value := "secret1" } = "secret1" :=
  c9_repr_depends_only_on_template "secret1" "secret2" "user:\x7b\x7d" "pw=\x7b\x7d;"
